import Mathlib

/-!
Verification of the komorebi command-processing engine.

This file gives a shallow embedding of `src/komorebi/src/process_command.rs`:
the single-writer command processor (`WindowManager::process_command`) and the
per-client command loop (`WindowManager::read_commands`).  The domain model
(monitors, workspaces, containers, windows), the command vocabulary, the
process-wide rule tables and the subscriber registry are reconstructed from the
specification, since their defining modules are not part of the excerpted
source.  Tree-manipulation helper methods whose bodies are absent are kept as
an explicit parameter record (`Ops`); every theorem below holds for every
interpretation of those helpers.
-/

set_option maxHeartbeats 1600000

namespace Komorebi

/-- A rectangle, as used for monitor geometry, invisible borders, the work-area
offset and per-container resize deltas. -/
structure Rect where
  left : Int
  top : Int
  right : Int
  bottom : Int
  deriving DecidableEq

/-- Modelled from the spec: planar directions used by focus/move commands. -/
inductive OperationDirection where
  | left
  | right
  | up
  | down
  deriving DecidableEq

/-- Modelled from the spec: cycling directions, §4.A. -/
inductive CycleDirection where
  | previous
  | next
  deriving DecidableEq

/-- Modelled from the spec: §4.A direction-based navigation helper
`next_idx(current, len, direction)`; wrap-around is mandatory and `len` is
guaranteed non-zero by the caller. -/
def CycleDirection.next_idx : CycleDirection → Nat → Nat → Nat
  | .previous, idx, len => (idx + len - 1) % len
  | .next, idx, len => (idx + 1) % len

/-- Modelled from the spec: grow/shrink selector for padding and resize. -/
inductive Sizing where
  | increase
  | decrease
  deriving DecidableEq

/-- Modelled from the spec: predefined layout kinds of a workspace. -/
inductive Layout where
  | bsp
  | columns
  | rows
  | verticalStack
  | horizontalStack
  | ultrawideVerticalStack
  deriving DecidableEq

/-- Modelled from the spec: axes for `FlipLayout`. -/
inductive LayoutFlip where
  | horizontal
  | vertical
  | horizontalAndVertical
  deriving DecidableEq

/-- Modelled from the spec: the kind of a rule identifier (executable name,
window class, or title). -/
inductive ApplicationIdentifier where
  | exe
  | windowClass
  | title
  deriving DecidableEq

/-- Modelled from the spec: the four focus-index queries of `Query`. -/
inductive StateQuery where
  | focusedMonitorIndex
  | focusedWorkspaceIndex
  | focusedContainerIndex
  | focusedWindowIndex
  deriving DecidableEq

/-- Modelled from the spec: the two mutually exclusive focus-follows-mouse
implementations. -/
inductive FocusFollowsMouseImplementation where
  | komorebi
  | windows
  deriving DecidableEq

/-- Modelled from the spec: §4.B command vocabulary.  The tagged union is
defined in the `komorebi-core` crate, outside the excerpted source; the
constructors and payloads are exactly those consumed by the `match` in
`process_command`. -/
inductive SocketMessage where
  | promote
  | focusWindow (direction : OperationDirection)
  | moveWindow (direction : OperationDirection)
  | cycleFocusWindow (direction : CycleDirection)
  | cycleMoveWindow (direction : CycleDirection)
  | stackWindow (direction : OperationDirection)
  | unstackWindow
  | cycleStack (direction : CycleDirection)
  | toggleFloat
  | toggleMonocle
  | toggleMaximize
  | containerPadding (monitorIdx workspaceIdx : Nat) (size : Int)
  | workspacePadding (monitorIdx workspaceIdx : Nat) (size : Int)
  | workspaceRule (kind : ApplicationIdentifier) (id : String) (monitorIdx workspaceIdx : Nat)
  | manageRule (kind : ApplicationIdentifier) (id : String)
  | floatRule (kind : ApplicationIdentifier) (id : String)
  | adjustContainerPadding (sizing : Sizing) (adjustment : Int)
  | adjustWorkspacePadding (sizing : Sizing) (adjustment : Int)
  | moveContainerToWorkspaceNumber (idx : Nat)
  | moveContainerToMonitorNumber (idx : Nat)
  | sendContainerToWorkspaceNumber (idx : Nat)
  | sendContainerToMonitorNumber (idx : Nat)
  | togglePause
  | toggleTiling
  | cycleFocusMonitor (direction : CycleDirection)
  | focusMonitorNumber (idx : Nat)
  | retile
  | flipLayout (flip : LayoutFlip)
  | changeLayout (layout : Layout)
  | changeLayoutCustom (path : String)
  | workspaceLayoutCustom (monitorIdx workspaceIdx : Nat) (path : String)
  | workspaceTiling (monitorIdx workspaceIdx : Nat) (tile : Bool)
  | workspaceLayout (monitorIdx workspaceIdx : Nat) (layout : Layout)
  | cycleFocusWorkspace (direction : CycleDirection)
  | focusWorkspaceNumber (idx : Nat)
  | stop
  | ensureWorkspaces (monitorIdx count : Nat)
  | newWorkspace
  | workspaceName (monitorIdx workspaceIdx : Nat) (name : String)
  | state
  | query (q : StateQuery)
  | resizeWindow (direction : OperationDirection) (sizing : Sizing)
  | focusFollowsMouse (implementation : FocusFollowsMouseImplementation) (enable : Bool)
  | toggleFocusFollowsMouse (implementation : FocusFollowsMouseImplementation)
  | reloadConfiguration
  | watchConfiguration (enable : Bool)
  | identifyBorderOverflow (kind : ApplicationIdentifier) (id : String)
  | identifyTrayApplication (kind : ApplicationIdentifier) (id : String)
  | manageFocusedWindow
  | unmanageFocusedWindow
  | invisibleBorders (rect : Rect)
  | workAreaOffset (rect : Rect)
  | quickSave
  | quickLoad
  | save (path : String)
  | load (path : String)
  | addSubscriber (name : String)
  | removeSubscriber (name : String)
  | toggleMouseFollowsFocus

/-- A flat record holding every payload a command can carry, used only to give
`SocketMessage` a decidable equality through an injective encoding (the
automatically derived instance produces an impractically large term for a
61-constructor union). -/
structure MsgRepr where
  tag : Nat
  opdir : OperationDirection
  cydir : CycleDirection
  sizing : Sizing
  layout : Layout
  flip : LayoutFlip
  kind : ApplicationIdentifier
  sq : StateQuery
  ffm : FocusFollowsMouseImplementation
  n1 : Nat
  n2 : Nat
  n3 : Nat
  i1 : Int
  s1 : String
  b1 : Bool
  r1 : Rect
  deriving DecidableEq

/-- The representation with every payload field at a default. -/
def MsgRepr.base : MsgRepr :=
  ⟨0, .left, .previous, .increase, .bsp, .horizontal, .exe, .focusedMonitorIndex,
    .komorebi, 0, 0, 0, 0, "", false, ⟨0, 0, 0, 0⟩⟩

/-- Injective encoding of a command into the flat payload record. -/
def SocketMessage.encode : SocketMessage → MsgRepr
  | .promote => { MsgRepr.base with tag := 0 }
  | .focusWindow d => { MsgRepr.base with tag := 1, opdir := d }
  | .moveWindow d => { MsgRepr.base with tag := 2, opdir := d }
  | .cycleFocusWindow d => { MsgRepr.base with tag := 3, cydir := d }
  | .cycleMoveWindow d => { MsgRepr.base with tag := 4, cydir := d }
  | .stackWindow d => { MsgRepr.base with tag := 5, opdir := d }
  | .unstackWindow => { MsgRepr.base with tag := 6 }
  | .cycleStack d => { MsgRepr.base with tag := 7, cydir := d }
  | .toggleFloat => { MsgRepr.base with tag := 8 }
  | .toggleMonocle => { MsgRepr.base with tag := 9 }
  | .toggleMaximize => { MsgRepr.base with tag := 10 }
  | .containerPadding a b c => { MsgRepr.base with tag := 11, n1 := a, n2 := b, i1 := c }
  | .workspacePadding a b c => { MsgRepr.base with tag := 12, n1 := a, n2 := b, i1 := c }
  | .workspaceRule k i a b => { MsgRepr.base with tag := 13, kind := k, s1 := i, n1 := a, n2 := b }
  | .manageRule k i => { MsgRepr.base with tag := 14, kind := k, s1 := i }
  | .floatRule k i => { MsgRepr.base with tag := 15, kind := k, s1 := i }
  | .adjustContainerPadding z a => { MsgRepr.base with tag := 16, sizing := z, i1 := a }
  | .adjustWorkspacePadding z a => { MsgRepr.base with tag := 17, sizing := z, i1 := a }
  | .moveContainerToWorkspaceNumber a => { MsgRepr.base with tag := 18, n1 := a }
  | .moveContainerToMonitorNumber a => { MsgRepr.base with tag := 19, n1 := a }
  | .sendContainerToWorkspaceNumber a => { MsgRepr.base with tag := 20, n1 := a }
  | .sendContainerToMonitorNumber a => { MsgRepr.base with tag := 21, n1 := a }
  | .togglePause => { MsgRepr.base with tag := 22 }
  | .toggleTiling => { MsgRepr.base with tag := 23 }
  | .cycleFocusMonitor d => { MsgRepr.base with tag := 24, cydir := d }
  | .focusMonitorNumber a => { MsgRepr.base with tag := 25, n1 := a }
  | .retile => { MsgRepr.base with tag := 26 }
  | .flipLayout f => { MsgRepr.base with tag := 27, flip := f }
  | .changeLayout l => { MsgRepr.base with tag := 28, layout := l }
  | .changeLayoutCustom p => { MsgRepr.base with tag := 29, s1 := p }
  | .workspaceLayoutCustom a b p => { MsgRepr.base with tag := 30, n1 := a, n2 := b, s1 := p }
  | .workspaceTiling a b t => { MsgRepr.base with tag := 31, n1 := a, n2 := b, b1 := t }
  | .workspaceLayout a b l => { MsgRepr.base with tag := 32, n1 := a, n2 := b, layout := l }
  | .cycleFocusWorkspace d => { MsgRepr.base with tag := 33, cydir := d }
  | .focusWorkspaceNumber a => { MsgRepr.base with tag := 34, n1 := a }
  | .stop => { MsgRepr.base with tag := 35 }
  | .ensureWorkspaces a b => { MsgRepr.base with tag := 36, n1 := a, n2 := b }
  | .newWorkspace => { MsgRepr.base with tag := 37 }
  | .workspaceName a b nm => { MsgRepr.base with tag := 38, n1 := a, n2 := b, s1 := nm }
  | .state => { MsgRepr.base with tag := 39 }
  | .query q => { MsgRepr.base with tag := 40, sq := q }
  | .resizeWindow d z => { MsgRepr.base with tag := 41, opdir := d, sizing := z }
  | .focusFollowsMouse f e => { MsgRepr.base with tag := 42, ffm := f, b1 := e }
  | .toggleFocusFollowsMouse f => { MsgRepr.base with tag := 43, ffm := f }
  | .reloadConfiguration => { MsgRepr.base with tag := 44 }
  | .watchConfiguration e => { MsgRepr.base with tag := 45, b1 := e }
  | .identifyBorderOverflow k i => { MsgRepr.base with tag := 46, kind := k, s1 := i }
  | .identifyTrayApplication k i => { MsgRepr.base with tag := 47, kind := k, s1 := i }
  | .manageFocusedWindow => { MsgRepr.base with tag := 48 }
  | .unmanageFocusedWindow => { MsgRepr.base with tag := 49 }
  | .invisibleBorders r => { MsgRepr.base with tag := 50, r1 := r }
  | .workAreaOffset r => { MsgRepr.base with tag := 51, r1 := r }
  | .quickSave => { MsgRepr.base with tag := 52 }
  | .quickLoad => { MsgRepr.base with tag := 53 }
  | .save p => { MsgRepr.base with tag := 54, s1 := p }
  | .load p => { MsgRepr.base with tag := 55, s1 := p }
  | .addSubscriber nm => { MsgRepr.base with tag := 56, s1 := nm }
  | .removeSubscriber nm => { MsgRepr.base with tag := 57, s1 := nm }
  | .toggleMouseFollowsFocus => { MsgRepr.base with tag := 58 }

/-- Left inverse of `SocketMessage.encode`. -/
def SocketMessage.decode (r : MsgRepr) : Option SocketMessage :=
  match r.tag with
  | 0 => some .promote
  | 1 => some (.focusWindow r.opdir)
  | 2 => some (.moveWindow r.opdir)
  | 3 => some (.cycleFocusWindow r.cydir)
  | 4 => some (.cycleMoveWindow r.cydir)
  | 5 => some (.stackWindow r.opdir)
  | 6 => some .unstackWindow
  | 7 => some (.cycleStack r.cydir)
  | 8 => some .toggleFloat
  | 9 => some .toggleMonocle
  | 10 => some .toggleMaximize
  | 11 => some (.containerPadding r.n1 r.n2 r.i1)
  | 12 => some (.workspacePadding r.n1 r.n2 r.i1)
  | 13 => some (.workspaceRule r.kind r.s1 r.n1 r.n2)
  | 14 => some (.manageRule r.kind r.s1)
  | 15 => some (.floatRule r.kind r.s1)
  | 16 => some (.adjustContainerPadding r.sizing r.i1)
  | 17 => some (.adjustWorkspacePadding r.sizing r.i1)
  | 18 => some (.moveContainerToWorkspaceNumber r.n1)
  | 19 => some (.moveContainerToMonitorNumber r.n1)
  | 20 => some (.sendContainerToWorkspaceNumber r.n1)
  | 21 => some (.sendContainerToMonitorNumber r.n1)
  | 22 => some .togglePause
  | 23 => some .toggleTiling
  | 24 => some (.cycleFocusMonitor r.cydir)
  | 25 => some (.focusMonitorNumber r.n1)
  | 26 => some .retile
  | 27 => some (.flipLayout r.flip)
  | 28 => some (.changeLayout r.layout)
  | 29 => some (.changeLayoutCustom r.s1)
  | 30 => some (.workspaceLayoutCustom r.n1 r.n2 r.s1)
  | 31 => some (.workspaceTiling r.n1 r.n2 r.b1)
  | 32 => some (.workspaceLayout r.n1 r.n2 r.layout)
  | 33 => some (.cycleFocusWorkspace r.cydir)
  | 34 => some (.focusWorkspaceNumber r.n1)
  | 35 => some .stop
  | 36 => some (.ensureWorkspaces r.n1 r.n2)
  | 37 => some .newWorkspace
  | 38 => some (.workspaceName r.n1 r.n2 r.s1)
  | 39 => some .state
  | 40 => some (.query r.sq)
  | 41 => some (.resizeWindow r.opdir r.sizing)
  | 42 => some (.focusFollowsMouse r.ffm r.b1)
  | 43 => some (.toggleFocusFollowsMouse r.ffm)
  | 44 => some .reloadConfiguration
  | 45 => some (.watchConfiguration r.b1)
  | 46 => some (.identifyBorderOverflow r.kind r.s1)
  | 47 => some (.identifyTrayApplication r.kind r.s1)
  | 48 => some .manageFocusedWindow
  | 49 => some .unmanageFocusedWindow
  | 50 => some (.invisibleBorders r.r1)
  | 51 => some (.workAreaOffset r.r1)
  | 52 => some .quickSave
  | 53 => some .quickLoad
  | 54 => some (.save r.s1)
  | 55 => some (.load r.s1)
  | 56 => some (.addSubscriber r.s1)
  | 57 => some (.removeSubscriber r.s1)
  | 58 => some .toggleMouseFollowsFocus
  | _ => none

instance : DecidableEq SocketMessage := fun a b =>
  decidable_of_iff (SocketMessage.encode a = SocketMessage.encode b) (by
    have hde : ∀ m : SocketMessage, SocketMessage.decode (SocketMessage.encode m) = some m := by
      intro m
      cases m <;> rfl
    constructor
    · intro h
      have hd := congrArg SocketMessage.decode h
      rw [hde, hde] at hd
      exact Option.some.inj hd
    · intro h
      rw [h])

/-- Modelled from the spec: a window carries an opaque native handle and the
classifying identifiers used to match rule tables. -/
structure Window where
  hwnd : Nat
  exe : String
  title : String
  deriving DecidableEq

/-- Modelled from the spec: a container is a stack of windows with a focused
window index. -/
structure Container where
  windows : List Window
  focused_window_idx : Nat
  deriving DecidableEq

/-- Modelled from the spec: a workspace hosts an ordered container list under a
layout, with a parallel sequence of optional per-container resize deltas. -/
structure Workspace where
  name : Option String
  layout : Layout
  tile : Bool
  containers : List Container
  focused_container_idx : Nat
  resize_dimensions : List (Option Rect)
  container_padding : Int
  workspace_padding : Int
  deriving DecidableEq

/-- Modelled from the spec: a monitor owns an ordered workspace sequence and a
focused workspace index. -/
structure Monitor where
  id : Nat
  size : Rect
  workspaces : List Workspace
  focused_workspace_idx : Nat
  deriving DecidableEq

/-- The singleton window-manager state, with the fields read and written by
`process_command` (§3). -/
structure WindowManager where
  monitors : List Monitor
  focused_monitor_idx : Nat
  is_paused : Bool
  mouse_follows_focus : Bool
  focus_follows_mouse : Option FocusFollowsMouseImplementation
  has_pending_raise_op : Bool
  invisible_borders : Rect
  work_area_offset : Option Rect
  deriving DecidableEq

/-- Navigation helper: the focused monitor, or none when the index is out of
range. -/
def WindowManager.focused_monitor (wm : WindowManager) : Option Monitor :=
  wm.monitors[wm.focused_monitor_idx]?

/-- Navigation helper: the focused workspace of a monitor. -/
def Monitor.focused_workspace (m : Monitor) : Option Workspace :=
  m.workspaces[m.focused_workspace_idx]?

/-- Navigation helper: the focused workspace of the window manager. -/
def WindowManager.focused_workspace (wm : WindowManager) : Option Workspace :=
  wm.focused_monitor.bind Monitor.focused_workspace

/-- Navigation helper: the focused container of a workspace. -/
def Workspace.focused_container (ws : Workspace) : Option Container :=
  ws.containers[ws.focused_container_idx]?

/-- Navigation helper: the focused container of the window manager. -/
def WindowManager.focused_container (wm : WindowManager) : Option Container :=
  wm.focused_workspace.bind Workspace.focused_container

/-- Apply a function to the element at one position of a list, leaving every
other element in place. -/
def modifyIdx (f : α → α) : List α → Nat → List α
  | [], _ => []
  | a :: l, 0 => f a :: l
  | a :: l, n + 1 => a :: modifyIdx f l n

/-- The counterpart of `focused_workspace_mut`: rewrite the focused workspace
in place. -/
def WindowManager.modify_focused_workspace (wm : WindowManager)
    (f : Workspace → Workspace) : WindowManager :=
  { wm with
    monitors := modifyIdx
      (fun m => { m with workspaces := modifyIdx f m.workspaces m.focused_workspace_idx })
      wm.monitors wm.focused_monitor_idx }

/-- One record of the outbound notification pipe payload:
`{event: Socket(command), state: snapshot}`. -/
structure Notification where
  event : SocketMessage
  state : WindowManager
  deriving DecidableEq

/-- What gets written to the secondary response socket.  `prettyStateJson`
stands for the pretty-printed JSON serialization of the full state snapshot
(the serializer itself lives outside the excerpt); `raw` is a byte-exact
string payload with no terminator appended. -/
inductive ResponsePayload where
  | prettyStateJson (snapshot : WindowManager)
  | raw (bytes : String)
  deriving DecidableEq

/-- A single write to the out-of-band response socket, tagged with the socket
path it was sent to. -/
structure ResponseWrite where
  path : String
  payload : ResponsePayload
  deriving DecidableEq

/-- The well-known response socket path: `komorebic.sock` in the home
directory. -/
def response_socket_path (home : String) : String :=
  home ++ "/komorebic.sock"

/-- Insert into an insertion-unique identifier sequence: containment is checked
first, and a new identifier is pushed at the end (the `contains`/`push`
pattern of the rule-table commands). -/
def insertUnique (id : String) (l : List String) : List String :=
  if id ∈ l then l else l ++ [id]

/-- Map insertion in the style of `HashMap::insert`: replace the value when the
key is present, append otherwise. -/
def insertAssoc (k : String) (v : β) (l : List (String × β)) : List (String × β) :=
  if (l.lookup k).isSome then l.map (fun p => if p.1 = k then (k, v) else p)
  else l ++ [(k, v)]

/-- Modelled from the spec: the process-wide environment around the window
manager — the global rule tables (§4.G), the subscriber registry (§4.E), the
`CUSTOM_FFM` capability flag, the OS focus-follows-mouse switch, and the
observable I/O of the processor: the quicksave file
(`<temp>/komorebi.quicksave.json`), arbitrary save files, the response-socket
writes, the notifications handed to the subscriber broadcast, and a count of
warn-level log entries. -/
structure Env where
  workspace_rules : List (String × Nat × Nat)
  manage_identifiers : List String
  float_identifiers : List String
  border_overflow_identifiers : List String
  tray_and_multi_window_identifiers : List String
  subscription_pipes : List (String × Nat)
  existing_pipes : List String
  next_pipe_handle : Nat
  custom_ffm : Bool
  os_focus_follows_mouse : Bool
  home_dir : Option String
  quicksave_file : Option (List (Option Rect))
  saved_files : List (String × List (Option Rect))
  response_socket_ok : Bool
  response_writes : List ResponseWrite
  notifications : List Notification
  warn_count : Nat
  deriving DecidableEq

/-- Record one warn-level log entry. -/
def Env.warn (env : Env) : Env :=
  { env with warn_count := env.warn_count + 1 }

/-- The full observable state a command acts on: the window manager plus the
process-wide environment. -/
structure World where
  wm : WindowManager
  env : Env
  deriving DecidableEq

/-- Outcome of processing: success, process termination (`Stop`), or an error
value; all three carry the state left behind (mutations made before a `?`
propagation persist, as with `&mut self` in the source). -/
inductive CmdResult where
  | ok (w : World)
  | exit (w : World)
  | err (e : String) (w : World)
  deriving DecidableEq

/-- The state carried by an outcome. -/
def CmdResult.world : CmdResult → World
  | .ok w => w
  | .exit w => w
  | .err _ w => w

/-- Whether the outcome is a success. -/
def CmdResult.isOk : CmdResult → Bool
  | .ok _ => true
  | _ => false

/-- Result of one absent helper method: the window manager it leaves behind and
an optional error (the `Result<()>` of the source). -/
abbrev HelperResult := WindowManager × Option String

/-- Modelled from the spec: the `WindowManager` helper methods invoked by
`process_command` whose bodies are not part of the excerpted source.  Per §4.G
the rule tables and the subscriber registry are mutated only via the
corresponding rule and subscriber commands, so each helper acts on the
window-manager tree alone; `monitor_idx_from_current_pos` reads the cursor
position.  Every theorem below is proved for an arbitrary interpretation of
this record. -/
structure Ops where
  promote_container_to_front : WindowManager → HelperResult
  focus_container_in_direction : OperationDirection → WindowManager → HelperResult
  move_container_in_direction : OperationDirection → WindowManager → HelperResult
  focus_container_in_cycle_direction : CycleDirection → WindowManager → HelperResult
  move_container_in_cycle_direction : CycleDirection → WindowManager → HelperResult
  add_window_to_container : OperationDirection → WindowManager → HelperResult
  remove_window_from_container : WindowManager → HelperResult
  cycle_container_window_in_direction : CycleDirection → WindowManager → HelperResult
  toggle_float : WindowManager → HelperResult
  toggle_monocle : WindowManager → HelperResult
  toggle_maximize : WindowManager → HelperResult
  toggle_tiling : WindowManager → HelperResult
  set_container_padding : Nat → Nat → Int → WindowManager → HelperResult
  set_workspace_padding : Nat → Nat → Int → WindowManager → HelperResult
  enforce_workspace_rules : List (String × Nat × Nat) → WindowManager → HelperResult
  adjust_container_padding : Sizing → Int → WindowManager → HelperResult
  adjust_workspace_padding : Sizing → Int → WindowManager → HelperResult
  move_container_to_workspace : Nat → Bool → WindowManager → HelperResult
  move_container_to_monitor : Nat → Bool → WindowManager → HelperResult
  focus_monitor : Nat → WindowManager → HelperResult
  focus_workspace : Nat → WindowManager → HelperResult
  monitor_idx_from_current_pos : WindowManager → Option Nat
  retile_all : WindowManager → HelperResult
  flip_layout : LayoutFlip → WindowManager → HelperResult
  change_workspace_layout_default : Layout → WindowManager → HelperResult
  change_workspace_custom_layout : String → WindowManager → HelperResult
  set_workspace_layout_custom : Nat → Nat → String → WindowManager → HelperResult
  set_workspace_tiling : Nat → Nat → Bool → WindowManager → HelperResult
  set_workspace_layout_default : Nat → Nat → Layout → WindowManager → HelperResult
  ensure_workspaces_for_monitor : Nat → Nat → WindowManager → HelperResult
  new_workspace : WindowManager → HelperResult
  set_workspace_name : Nat → Nat → String → WindowManager → HelperResult
  resize_window : OperationDirection → Sizing → Option Int → WindowManager → HelperResult
  watch_configuration : Bool → WindowManager → HelperResult
  manage_focused_window : WindowManager → HelperResult
  unmanage_focused_window : WindowManager → HelperResult

/-- Propagate a helper call the way `?` does in the source: on an error the
command aborts with the state the helper left behind, otherwise the
continuation runs on it. -/
def hstep (w : World) (r : HelperResult) (k : World → CmdResult) : CmdResult :=
  match r with
  | (wm, some e) => .err e { w with wm := wm }
  | (wm, none) => k { w with wm := wm }

/-- Modelled from the spec: `validate_virtual_desktop_id` is a best-effort
consistency check against the OS performed at the top of every invocation; it
does not modify the model. -/
def validate_virtual_desktop_id (wm : WindowManager) : WindowManager :=
  wm

/-- Modelled from the spec: `restore_all_windows` makes every hidden window
visible again via the OS API before `Stop` terminates; the domain model is not
altered. -/
def restore_all_windows (wm : WindowManager) : WindowManager :=
  wm

/-- Modelled from the spec: `update_focused_workspace` triggers the reconciler
(§4.D), which instructs the OS API to move/resize/show/hide windows; the
domain model is not altered.  The argument mirrors the `mouse_follows_focus`
flag passed in the source. -/
def update_focused_workspace (_mouse_follows_focus : Bool) (wm : WindowManager) : HelperResult :=
  (wm, none)

/-- The focused-index response of `Query`, computed exactly as in the `Query`
arm of `process_command` (navigation failures become the errors the `?`
operator would raise). -/
def query_response (wm : WindowManager) (q : StateQuery) : Except String Nat :=
  match q with
  | .focusedMonitorIndex => .ok wm.focused_monitor_idx
  | .focusedWorkspaceIndex =>
    match wm.focused_monitor with
    | none => .error "there is no monitor"
    | some m => .ok m.focused_workspace_idx
  | .focusedContainerIndex =>
    match wm.focused_workspace with
    | none => .error "there is no workspace"
    | some ws => .ok ws.focused_container_idx
  | .focusedWindowIndex =>
    match wm.focused_container with
    | none => .error "there is no container"
    | some c => .ok c.focused_window_idx

/-- Shallow embedding of `WindowManager::process_command`.  Each arm mirrors
the corresponding arm of the `match` in the source; absent helper methods are
taken from `ops`. -/
def process_command (ops : Ops) (w : World) (message : SocketMessage) : CmdResult :=
  let w : World := { w with wm := validate_virtual_desktop_id w.wm }
  match message with
  | .promote => hstep w (ops.promote_container_to_front w.wm) .ok
  | .focusWindow direction => hstep w (ops.focus_container_in_direction direction w.wm) .ok
  | .moveWindow direction => hstep w (ops.move_container_in_direction direction w.wm) .ok
  | .cycleFocusWindow direction =>
    hstep w (ops.focus_container_in_cycle_direction direction w.wm) .ok
  | .cycleMoveWindow direction =>
    hstep w (ops.move_container_in_cycle_direction direction w.wm) .ok
  | .stackWindow direction => hstep w (ops.add_window_to_container direction w.wm) .ok
  | .unstackWindow => hstep w (ops.remove_window_from_container w.wm) .ok
  | .cycleStack direction =>
    hstep w (ops.cycle_container_window_in_direction direction w.wm) .ok
  | .toggleFloat => hstep w (ops.toggle_float w.wm) .ok
  | .toggleMonocle => hstep w (ops.toggle_monocle w.wm) .ok
  | .toggleMaximize => hstep w (ops.toggle_maximize w.wm) .ok
  | .containerPadding mi wi size => hstep w (ops.set_container_padding mi wi size w.wm) .ok
  | .workspacePadding mi wi size => hstep w (ops.set_workspace_padding mi wi size w.wm) .ok
  | .workspaceRule _ id mi wi =>
    let env1 := { w.env with workspace_rules := insertAssoc id (mi, wi) w.env.workspace_rules }
    let w1 : World := { w with env := env1 }
    hstep w1 (ops.enforce_workspace_rules env1.workspace_rules w1.wm) .ok
  | .manageRule _ id =>
    .ok { w with env :=
      { w.env with manage_identifiers := insertUnique id w.env.manage_identifiers } }
  | .floatRule _ id =>
    .ok { w with env :=
      { w.env with float_identifiers := insertUnique id w.env.float_identifiers } }
  | .adjustContainerPadding sizing adjustment =>
    hstep w (ops.adjust_container_padding sizing adjustment w.wm) .ok
  | .adjustWorkspacePadding sizing adjustment =>
    hstep w (ops.adjust_workspace_padding sizing adjustment w.wm) .ok
  | .moveContainerToWorkspaceNumber wi => hstep w (ops.move_container_to_workspace wi true w.wm) .ok
  | .moveContainerToMonitorNumber mi => hstep w (ops.move_container_to_monitor mi true w.wm) .ok
  | .sendContainerToWorkspaceNumber wi =>
    hstep w (ops.move_container_to_workspace wi false w.wm) .ok
  | .sendContainerToMonitorNumber mi => hstep w (ops.move_container_to_monitor mi false w.wm) .ok
  | .togglePause => .ok { w with wm := { w.wm with is_paused := !w.wm.is_paused } }
  | .toggleTiling => hstep w (ops.toggle_tiling w.wm) .ok
  | .cycleFocusMonitor direction =>
    if w.wm.monitors.length = 0 then .err "there must be at least one monitor" w
    else
      let monitor_idx := direction.next_idx w.wm.focused_monitor_idx w.wm.monitors.length
      hstep w (ops.focus_monitor monitor_idx w.wm) fun w1 =>
        hstep w1 (update_focused_workspace w1.wm.mouse_follows_focus w1.wm) .ok
  | .focusMonitorNumber mi =>
    hstep w (ops.focus_monitor mi w.wm) fun w1 =>
      hstep w1 (update_focused_workspace w1.wm.mouse_follows_focus w1.wm) .ok
  | .retile => hstep w (ops.retile_all w.wm) .ok
  | .flipLayout lf => hstep w (ops.flip_layout lf w.wm) .ok
  | .changeLayout layout => hstep w (ops.change_workspace_layout_default layout w.wm) .ok
  | .changeLayoutCustom path => hstep w (ops.change_workspace_custom_layout path w.wm) .ok
  | .workspaceLayoutCustom mi wi path =>
    hstep w (ops.set_workspace_layout_custom mi wi path w.wm) .ok
  | .workspaceTiling mi wi tile => hstep w (ops.set_workspace_tiling mi wi tile w.wm) .ok
  | .workspaceLayout mi wi layout => hstep w (ops.set_workspace_layout_default mi wi layout w.wm) .ok
  | .cycleFocusWorkspace direction =>
    match ops.monitor_idx_from_current_pos w.wm with
    | none => .err "there is no monitor associated with the current cursor position" w
    | some monitor_idx =>
      hstep w (ops.focus_monitor monitor_idx w.wm) fun w1 =>
        match w1.wm.focused_monitor with
        | none => .err "there is no monitor" w1
        | some focused_monitor =>
          let workspaces := focused_monitor.workspaces.length
          if workspaces = 0 then .err "there must be at least one workspace" w1
          else
            let workspace_idx :=
              direction.next_idx focused_monitor.focused_workspace_idx workspaces
            hstep w1 (ops.focus_workspace workspace_idx w1.wm) .ok
  | .focusWorkspaceNumber wi =>
    match ops.monitor_idx_from_current_pos w.wm with
    | none => .err "there is no monitor associated with the current cursor position" w
    | some monitor_idx =>
      hstep w (ops.focus_monitor monitor_idx w.wm) fun w1 =>
        hstep w1 (ops.focus_workspace wi w1.wm) .ok
  | .stop => .exit { w with wm := restore_all_windows w.wm }
  | .ensureWorkspaces mi n => hstep w (ops.ensure_workspaces_for_monitor mi n w.wm) .ok
  | .newWorkspace => hstep w (ops.new_workspace w.wm) .ok
  | .workspaceName mi wi name => hstep w (ops.set_workspace_name mi wi name w.wm) .ok
  | .state =>
    match w.env.home_dir with
    | none => .err "there is no home directory" w
    | some home =>
      if w.env.response_socket_ok then
        .ok { w with env := { w.env with response_writes := w.env.response_writes ++
          [{ path := response_socket_path home, payload := .prettyStateJson w.wm }] } }
      else .err "could not connect to komorebic.sock" w
  | .query q =>
    match query_response w.wm q with
    | .error e => .err e w
    | .ok response =>
      match w.env.home_dir with
      | none => .err "there is no home directory" w
      | some home =>
        if w.env.response_socket_ok then
          .ok { w with env := { w.env with response_writes := w.env.response_writes ++
            [{ path := response_socket_path home, payload := .raw (Nat.repr response) }] } }
        else .err "could not connect to komorebic.sock" w
  | .resizeWindow direction sizing => hstep w (ops.resize_window direction sizing (some 50) w.wm) .ok
  | .focusFollowsMouse implementation enable =>
    let p := if !w.env.custom_ffm
      then (FocusFollowsMouseImplementation.windows, w.env.warn)
      else (implementation, w.env)
    let implementation := p.1
    let w : World := { w with env := p.2 }
    match implementation with
    | .komorebi =>
      if w.env.os_focus_follows_mouse then
        .ok { w with env := w.env.warn }
      else if enable then
        .ok { w with wm := { w.wm with focus_follows_mouse := some .komorebi } }
      else
        .ok { w with wm :=
          { w.wm with focus_follows_mouse := none, has_pending_raise_op := false } }
    | .windows =>
      if w.wm.focus_follows_mouse = some .komorebi then
        .ok { w with env := w.env.warn }
      else if enable then
        .ok { w with wm := { w.wm with focus_follows_mouse := some .windows },
                     env := { w.env with os_focus_follows_mouse := true } }
      else
        .ok { w with wm := { w.wm with focus_follows_mouse := none },
                     env := { w.env with os_focus_follows_mouse := false } }
  | .toggleFocusFollowsMouse implementation =>
    let p := if !w.env.custom_ffm
      then (FocusFollowsMouseImplementation.windows, w.env.warn)
      else (implementation, w.env)
    let implementation := p.1
    let w : World := { w with env := p.2 }
    match implementation with
    | .komorebi =>
      if w.env.os_focus_follows_mouse then
        .ok { w with env := w.env.warn }
      else
        match w.wm.focus_follows_mouse with
        | none =>
          .ok { w with wm :=
            { w.wm with focus_follows_mouse := some .komorebi, has_pending_raise_op := false } }
        | some .komorebi =>
          .ok { w with wm := { w.wm with focus_follows_mouse := none } }
        | some .windows =>
          .ok { w with env := w.env.warn }
    | .windows =>
      if w.wm.focus_follows_mouse = some .komorebi then
        .ok { w with env := w.env.warn }
      else
        match w.wm.focus_follows_mouse with
        | none =>
          .ok { w with wm := { w.wm with focus_follows_mouse := some .windows },
                       env := { w.env with os_focus_follows_mouse := true } }
        | some .windows =>
          .ok { w with wm := { w.wm with focus_follows_mouse := none },
                       env := { w.env with os_focus_follows_mouse := false } }
        | some .komorebi =>
          .ok { w with env := w.env.warn }
  | .reloadConfiguration => .ok w
  | .watchConfiguration enable => hstep w (ops.watch_configuration enable w.wm) .ok
  | .identifyBorderOverflow _ id =>
    .ok { w with env := { w.env with
      border_overflow_identifiers := insertUnique id w.env.border_overflow_identifiers } }
  | .identifyTrayApplication _ id =>
    .ok { w with env := { w.env with
      tray_and_multi_window_identifiers :=
        insertUnique id w.env.tray_and_multi_window_identifiers } }
  | .manageFocusedWindow => hstep w (ops.manage_focused_window w.wm) .ok
  | .unmanageFocusedWindow => hstep w (ops.unmanage_focused_window w.wm) .ok
  | .invisibleBorders rect =>
    let w1 : World := { w with wm := { w.wm with invisible_borders := rect } }
    hstep w1 (ops.retile_all w1.wm) .ok
  | .workAreaOffset rect =>
    let w1 : World := { w with wm := { w.wm with work_area_offset := some rect } }
    hstep w1 (ops.retile_all w1.wm) .ok
  | .quickSave =>
    match w.wm.focused_workspace with
    | none => .err "there is no workspace" w
    | some workspace =>
      .ok { w with env := { w.env with quicksave_file := some workspace.resize_dimensions } }
  | .quickLoad =>
    match w.wm.focused_workspace with
    | none => .err "there is no workspace" w
    | some _ =>
      match w.env.quicksave_file with
      | none => .err "no quicksave found" w
      | some resize =>
        let wm1 := w.wm.modify_focused_workspace (fun ws => { ws with resize_dimensions := resize })
        hstep { w with wm := wm1 } (update_focused_workspace false wm1) .ok
  | .save path =>
    match w.wm.focused_workspace with
    | none => .err "there is no workspace" w
    | some workspace =>
      .ok { w with env := { w.env with
        saved_files := insertAssoc path workspace.resize_dimensions w.env.saved_files } }
  | .load path =>
    match w.wm.focused_workspace with
    | none => .err "there is no workspace" w
    | some _ =>
      match w.env.saved_files.lookup path with
      | none => .err "no file found" w
      | some resize =>
        let wm1 := w.wm.modify_focused_workspace (fun ws => { ws with resize_dimensions := resize })
        hstep { w with wm := wm1 } (update_focused_workspace false wm1) .ok
  | .addSubscriber subscriber =>
    if subscriber ∈ w.env.existing_pipes then
      .ok { w with env := { w.env with
        subscription_pipes :=
          insertAssoc subscriber w.env.next_pipe_handle w.env.subscription_pipes,
        next_pipe_handle := w.env.next_pipe_handle + 1 } }
    else .err "the named pipe has not yet been created" w
  | .removeSubscriber subscriber =>
    .ok { w with env := { w.env with
      subscription_pipes := w.env.subscription_pipes.filter (fun p => p.1 != subscriber) } }
  | .toggleMouseFollowsFocus =>
    .ok { w with wm := { w.wm with mouse_follows_focus := !w.wm.mouse_follows_focus } }

/-- Modelled from the spec: record the single notification payload the listener
broadcasts after a successful command (per-pipe delivery and dead-pipe pruning
are outside the model). -/
def notify_subscribers_payload (w : World) (message : SocketMessage) : World :=
  { w with env := { w.env with notifications := w.env.notifications ++
    [{ event := message, state := w.wm }] } }

/-- Shallow embedding of `WindowManager::read_commands`.  A stream is the list
of its decoded lines; `none` stands for a line whose read or decode failed,
which the `?` operators turn into an immediate error return. -/
def read_commands (ops : Ops) : World → List (Option SocketMessage) → CmdResult
  | w, [] => .ok w
  | w, none :: _ => .err "invalid socket message" w
  | w, some message :: rest =>
    if w.wm.is_paused then
      match message with
      | .togglePause | .state | .stop => process_command ops w message
      | _ => .ok w
    else
      match process_command ops w message with
      | .ok w1 => read_commands ops (notify_subscribers_payload w1 message) rest
      | r => r

/-- Sequential composition of `process_command` over a command list, stopping
at the first non-success (the linearized behaviour guaranteed by the single
lock, §5). -/
def runSeq (ops : Ops) : List SocketMessage → World → CmdResult
  | [], w => .ok w
  | m :: ms, w =>
    match process_command ops w m with
    | .ok w1 => runSeq ops ms w1
    | r => r

/-- Modelled from the spec: growing or shrinking moves one edge of the focused
container's resize delta by the fixed pixel amount. -/
def adjustDelta (r : Rect) (direction : OperationDirection) (amount : Int) : Rect :=
  match direction with
  | .left => { r with left := r.left - amount }
  | .right => { r with right := r.right + amount }
  | .up => { r with top := r.top - amount }
  | .down => { r with bottom := r.bottom + amount }

/-- A concrete interpretation of the absent helper methods, used to instantiate
the theorems below at concrete states.  `resize_window` follows the spec's
description (a fixed 50-pixel adjustment of the focused container's resize
delta); helpers not exercised by any concrete run here are interpreted as
successful no-ops. -/
def defaultOps : Ops where
  promote_container_to_front wm := (wm, none)
  focus_container_in_direction _ wm := (wm, none)
  move_container_in_direction _ wm := (wm, none)
  focus_container_in_cycle_direction _ wm := (wm, none)
  move_container_in_cycle_direction _ wm := (wm, none)
  add_window_to_container _ wm := (wm, none)
  remove_window_from_container wm := (wm, none)
  cycle_container_window_in_direction _ wm := (wm, none)
  toggle_float wm := (wm, none)
  toggle_monocle wm := (wm, none)
  toggle_maximize wm := (wm, none)
  toggle_tiling wm := (wm, none)
  set_container_padding _ _ _ wm := (wm, none)
  set_workspace_padding _ _ _ wm := (wm, none)
  enforce_workspace_rules _ wm := (wm, none)
  adjust_container_padding _ _ wm := (wm, none)
  adjust_workspace_padding _ _ wm := (wm, none)
  move_container_to_workspace _ _ wm := (wm, none)
  move_container_to_monitor _ _ wm := (wm, none)
  focus_monitor idx wm :=
    if idx < wm.monitors.length then ({ wm with focused_monitor_idx := idx }, none)
    else (wm, some "monitor index out of range")
  focus_workspace idx wm :=
    let ms := modifyIdx
      (fun m => if idx < m.workspaces.length then { m with focused_workspace_idx := idx } else m)
      wm.monitors wm.focused_monitor_idx
    ({ wm with monitors := ms }, none)
  monitor_idx_from_current_pos wm := some wm.focused_monitor_idx
  retile_all wm := (wm, none)
  flip_layout _ wm := (wm, none)
  change_workspace_layout_default _ wm := (wm, none)
  change_workspace_custom_layout _ wm := (wm, none)
  set_workspace_layout_custom _ _ _ wm := (wm, none)
  set_workspace_tiling _ _ _ wm := (wm, none)
  set_workspace_layout_default _ _ _ wm := (wm, none)
  ensure_workspaces_for_monitor _ _ wm := (wm, none)
  new_workspace wm := (wm, none)
  set_workspace_name _ _ _ wm := (wm, none)
  resize_window direction sizing delta wm :=
    let amount : Int :=
      match sizing with
      | .increase => delta.getD 50
      | .decrease => -(delta.getD 50)
    (wm.modify_focused_workspace (fun ws =>
      let rd := modifyIdx (fun r => some (adjustDelta (r.getD ⟨0, 0, 0, 0⟩) direction amount))
        ws.resize_dimensions ws.focused_container_idx
      { ws with resize_dimensions := rd }), none)
  watch_configuration _ wm := (wm, none)
  manage_focused_window wm := (wm, none)
  unmanage_focused_window wm := (wm, none)

/-- A concrete window: one managed application window. -/
def sampleWindow : Window :=
  { hwnd := 7, exe := "firefox.exe", title := "hello" }

/-- A concrete container holding `sampleWindow`. -/
def sampleContainer : Container :=
  { windows := [sampleWindow], focused_window_idx := 0 }

/-- A concrete workspace with one container and one resize delta. -/
def sampleWorkspace : Workspace :=
  { name := none
    layout := .bsp
    tile := true
    containers := [sampleContainer]
    focused_container_idx := 0
    resize_dimensions := [some ⟨1, 2, 3, 4⟩]
    container_padding := 10
    workspace_padding := 10 }

/-- A concrete monitor with one workspace. -/
def sampleMonitor : Monitor :=
  { id := 0, size := ⟨0, 0, 1920, 1080⟩, workspaces := [sampleWorkspace], focused_workspace_idx := 0 }

/-- A concrete window-manager state: one monitor, unpaused, no
focus-follows-mouse. -/
def baseWm : WindowManager :=
  { monitors := [sampleMonitor]
    focused_monitor_idx := 0
    is_paused := false
    mouse_follows_focus := true
    focus_follows_mouse := none
    has_pending_raise_op := false
    invisible_borders := ⟨7, 0, 14, 7⟩
    work_area_offset := none }

/-- A concrete environment: empty tables and registry, the capability flag set,
home directory and response socket available. -/
def baseEnv : Env :=
  { workspace_rules := []
    manage_identifiers := []
    float_identifiers := []
    border_overflow_identifiers := []
    tray_and_multi_window_identifiers := []
    subscription_pipes := []
    existing_pipes := ["bar"]
    next_pipe_handle := 0
    custom_ffm := true
    os_focus_follows_mouse := false
    home_dir := some "/home/user"
    quicksave_file := none
    saved_files := []
    response_socket_ok := true
    response_writes := []
    notifications := []
    warn_count := 0 }

/-- The base concrete world for witnesses. -/
def baseWorld : World :=
  { wm := baseWm, env := baseEnv }

/-- The base world with the manager paused. -/
def pausedWorld : World :=
  { baseWorld with wm := { baseWm with is_paused := true } }

/-- A world with no monitors, on which the focus navigation of `Query`
fails. -/
def emptyWorld : World :=
  { baseWorld with wm := { baseWm with monitors := [] } }

/-- C1: while the manager is paused, a command other than `TogglePause`,
`State` and `Stop` leaves the whole world — window-manager state, rule tables
and subscriber registry — unchanged and the stream handler returns success;
and no subscriber notification is emitted for any command handled while
paused. -/
theorem c1_paused_command_filter (ops : Ops) (w : World) (m : SocketMessage)
    (rest : List (Option SocketMessage)) (hp : w.wm.is_paused = true) :
    ((m ≠ .togglePause ∧ m ≠ .state ∧ m ≠ .stop) →
      read_commands ops w (some m :: rest) = .ok w) ∧
    (read_commands ops w (some m :: rest)).world.env.notifications =
      w.env.notifications := by
  have hr : read_commands ops w (some m :: rest) =
      match m with
      | .togglePause | .state | .stop => process_command ops w m
      | _ => .ok w := by
    simp [read_commands, hp]
  constructor
  · rintro ⟨h1, h2, h3⟩
    rw [hr]
    cases m <;> try rfl
    · exact absurd rfl h1
    · exact absurd rfl h3
    · exact absurd rfl h2
  · rw [hr]
    cases m <;> try rfl
    · -- `State`: the response write leaves the notification log untouched
      simp only [process_command]
      cases hh : w.env.home_dir with
      | none => rfl
      | some home =>
        cases hrs : w.env.response_socket_ok <;> simp [hh, hrs, CmdResult.world]

/-- C1 witness: on the concrete paused world, `Retile` leaves everything
unchanged and emits no notification. -/
theorem c1_witness :
    pausedWorld.wm.is_paused = true ∧
    read_commands defaultOps pausedWorld [some .retile] = .ok pausedWorld ∧
    (read_commands defaultOps pausedWorld [some .retile]).world.env.notifications =
      pausedWorld.env.notifications := by
  refine ⟨rfl, ?_, ?_⟩
  · exact (c1_paused_command_filter defaultOps pausedWorld .retile [] rfl).1
      ⟨by decide, by decide, by decide⟩
  · exact (c1_paused_command_filter defaultOps pausedWorld .retile [] rfl).2

/-- C2 counterexample: a line that fails to decode is not skipped — the stream
handler returns an error immediately, so the following (well-formed)
`TogglePause` line of the same stream is never processed and the state is the
one from before the stream was read. -/
theorem c2_counterexample :
    read_commands defaultOps baseWorld [none, some .togglePause] =
      .err "invalid socket message" baseWorld := by
  rfl

/-- C2 (amended): a line that fails to decode, or an error returned by
processing a decoded command, aborts `read_commands` for that stream — the
error is returned to the accept loop (which logs it and continues with the
next client connection) and the remaining lines of the stream are not
read. -/
theorem c2_stream_abort (ops : Ops) (w : World) (rest : List (Option SocketMessage)) :
    (read_commands ops w (none :: rest) = .err "invalid socket message" w) ∧
    (∀ m e w1, w.wm.is_paused = false → process_command ops w m = .err e w1 →
      read_commands ops w (some m :: rest) = .err e w1) := by
  refine ⟨rfl, ?_⟩
  intro m e w1 hp hpc
  simp [read_commands, hp, hpc]

/-- C2 witness: the decode failure aborts a concrete stream, and a failing
`Query` on a world with no monitors aborts the stream before its second
line. -/
theorem c2_witness :
    read_commands defaultOps baseWorld [none, some .togglePause] =
      .err "invalid socket message" baseWorld ∧
    (emptyWorld.wm.is_paused = false ∧
      process_command defaultOps emptyWorld (.query .focusedContainerIndex) =
        .err "there is no workspace" emptyWorld ∧
      read_commands defaultOps emptyWorld
          [some (.query .focusedContainerIndex), some .togglePause] =
        .err "there is no workspace" emptyWorld) := by
  refine ⟨(c2_stream_abort defaultOps baseWorld [some .togglePause]).1, rfl, by rfl, ?_⟩
  exact (c2_stream_abort defaultOps emptyWorld [some .togglePause]).2
    (.query .focusedContainerIndex) "there is no workspace" emptyWorld rfl (by rfl)

/-- C3 counterexample: `State` is an introspection command, yet after it is
processed successfully (while not paused) a notification payload is broadcast:
the claim's "if and only if the command is a non-introspection command" fails
on the code. -/
theorem c3_counterexample :
    (read_commands defaultOps baseWorld [some .state]).isOk = true ∧
    (read_commands defaultOps baseWorld [some .state]).world.env.notifications =
      [{ event := .state, state := baseWm }] := by
  constructor <;> rfl

/-- C3 (amended): when not paused, after every successfully processed command —
including the introspection commands `State` and `Query` — exactly one
notification payload `{event: Socket(command), state: snapshot}` is appended
for broadcast, and the loop continues from the notified world. -/
theorem c3_notification_after_success (ops : Ops) (w : World) (m : SocketMessage)
    (rest : List (Option SocketMessage)) (w1 : World) (hp : w.wm.is_paused = false)
    (hok : process_command ops w m = .ok w1) :
    read_commands ops w (some m :: rest) =
      read_commands ops (notify_subscribers_payload w1 m) rest ∧
    (notify_subscribers_payload w1 m).env.notifications =
      w1.env.notifications ++ [{ event := m, state := w1.wm }] ∧
    (notify_subscribers_payload w1 m).wm = w1.wm := by
  refine ⟨?_, rfl, rfl⟩
  simp [read_commands, hp, hok]

/-- C3 witness: on the concrete base world, a successful `Retile` is followed
by exactly one notification payload. -/
theorem c3_witness :
    baseWorld.wm.is_paused = false ∧
    process_command defaultOps baseWorld .retile = .ok baseWorld ∧
    (read_commands defaultOps baseWorld [some .retile] =
        read_commands defaultOps (notify_subscribers_payload baseWorld .retile) [] ∧
      (notify_subscribers_payload baseWorld .retile).env.notifications =
        baseWorld.env.notifications ++ [{ event := .retile, state := baseWorld.wm }] ∧
      (notify_subscribers_payload baseWorld .retile).wm = baseWorld.wm) := by
  refine ⟨rfl, by rfl, ?_⟩
  exact c3_notification_after_success defaultOps baseWorld .retile [] baseWorld rfl (by rfl)

/-- C10: if the manager is paused when a line is read, `read_commands` returns
after handling that single line, so any further lines queued on the same
client connection are never read in that call — even when the handled line was
`TogglePause`. -/
theorem c10_paused_returns_after_one_line (ops : Ops) (w : World)
    (line : Option SocketMessage) (rest : List (Option SocketMessage))
    (hp : w.wm.is_paused = true) :
    read_commands ops w (line :: rest) = read_commands ops w [line] := by
  cases line with
  | none => rfl
  | some m => simp [read_commands, hp]

/-- C10 witness: on the concrete paused world, a queued second line is ignored
— also when the first line is `TogglePause`, which unpauses the manager. -/
theorem c10_witness :
    pausedWorld.wm.is_paused = true ∧
    read_commands defaultOps pausedWorld [some .togglePause, some .retile] =
      read_commands defaultOps pausedWorld [some .togglePause] :=
  ⟨rfl, c10_paused_returns_after_one_line defaultOps pausedWorld (some .togglePause)
    [some .retile] rfl⟩

/-- A world where the OS-native focus-follows-mouse is enabled and the process
was started without the `--ffm` capability flag. -/
def osFfmNoCapWorld : World :=
  { baseWorld with env := { baseEnv with custom_ffm := false, os_focus_follows_mouse := true } }

/-- A world where the OS-native focus-follows-mouse is enabled and the
capability flag is set. -/
def osFfmWorld : World :=
  { baseWorld with env := { baseEnv with os_focus_follows_mouse := true } }

/-- A world where the internal (komorebi) focus-follows-mouse implementation is
active and a raise operation is pending. -/
def komorebiFfmWorld : World :=
  { baseWorld with wm :=
    { baseWm with focus_follows_mouse := some .komorebi, has_pending_raise_op := true } }

/-- C4 counterexample: with the OS-native implementation active but the process
started without the `CUSTOM_FFM` capability, `FocusFollowsMouse(Komorebi,
true)` is coerced to the Windows implementation and does change
`focus_follows_mouse` (from `none` to `some windows`), so the claim fails as
universally stated. -/
theorem c4_counterexample :
    (process_command defaultOps osFfmNoCapWorld (.focusFollowsMouse .komorebi true)).isOk =
      true ∧
    (process_command defaultOps osFfmNoCapWorld
        (.focusFollowsMouse .komorebi true)).world.wm.focus_follows_mouse = some .windows ∧
    osFfmNoCapWorld.wm.focus_follows_mouse = none := by
  refine ⟨rfl, rfl, rfl⟩

/-- C4 (amended): provided the process was started with the `CUSTOM_FFM`
capability, processing `FocusFollowsMouse` or `ToggleFocusFollowsMouse` for
the implementation other than the active one (OS-native reported enabled, or
`focus_follows_mouse = Some(Komorebi)`) returns success, logs exactly one
warning, and leaves the window-manager state and everything else
unchanged. -/
theorem c4_mutual_exclusion (ops : Ops) (w : World)
    (impl : FocusFollowsMouseImplementation) (enable : Bool)
    (hc : w.env.custom_ffm = true)
    (hother : (impl = .komorebi ∧ w.env.os_focus_follows_mouse = true) ∨
      (impl = .windows ∧ w.wm.focus_follows_mouse = some .komorebi)) :
    process_command ops w (.focusFollowsMouse impl enable) =
      .ok { w with env := w.env.warn } ∧
    process_command ops w (.toggleFocusFollowsMouse impl) =
      .ok { w with env := w.env.warn } := by
  rcases hother with ⟨hi, hos⟩ | ⟨hi, hk⟩
  · subst hi
    constructor <;> simp [process_command, validate_virtual_desktop_id, hc, hos]
  · subst hi
    constructor <;> simp [process_command, validate_virtual_desktop_id, hc, hk]

/-- C4 witness: on a concrete world with the OS-native implementation enabled
and the capability flag set, enabling or toggling the komorebi implementation
succeeds, warns, and changes nothing else. -/
theorem c4_witness :
    osFfmWorld.env.custom_ffm = true ∧
    osFfmWorld.env.os_focus_follows_mouse = true ∧
    process_command defaultOps osFfmWorld (.focusFollowsMouse .komorebi true) =
      .ok { osFfmWorld with env := osFfmWorld.env.warn } ∧
    process_command defaultOps osFfmWorld (.toggleFocusFollowsMouse .komorebi) =
      .ok { osFfmWorld with env := osFfmWorld.env.warn } := by
  refine ⟨rfl, rfl, ?_, ?_⟩
  · exact (c4_mutual_exclusion defaultOps osFfmWorld .komorebi true rfl (Or.inl ⟨rfl, rfl⟩)).1
  · exact (c4_mutual_exclusion defaultOps osFfmWorld .komorebi true rfl (Or.inl ⟨rfl, rfl⟩)).2

/-- C5 counterexample: `ToggleFocusFollowsMouse(Komorebi)` on a state with
`focus_follows_mouse = Some(Komorebi)` and `has_pending_raise_op = true`
disables the internal implementation but leaves `has_pending_raise_op` set, so
the claim fails for the toggle path. -/
theorem c5_counterexample :
    (process_command defaultOps komorebiFfmWorld
        (.toggleFocusFollowsMouse .komorebi)).isOk = true ∧
    (process_command defaultOps komorebiFfmWorld
        (.toggleFocusFollowsMouse .komorebi)).world.wm.focus_follows_mouse = none ∧
    (process_command defaultOps komorebiFfmWorld
        (.toggleFocusFollowsMouse .komorebi)).world.wm.has_pending_raise_op = true := by
  refine ⟨rfl, rfl, rfl⟩

/-- C5 (amended): with the capability flag set and the OS-native implementation
disabled, `FocusFollowsMouse(Komorebi, false)` disables the internal
implementation and clears `has_pending_raise_op`; disabling it via
`ToggleFocusFollowsMouse(Komorebi)` sets `focus_follows_mouse` to `None` but
leaves `has_pending_raise_op` unchanged. -/
theorem c5_pending_raise_cleared (ops : Ops) (w : World)
    (hc : w.env.custom_ffm = true) (hos : w.env.os_focus_follows_mouse = false) :
    process_command ops w (.focusFollowsMouse .komorebi false) =
      .ok { w with wm :=
        { w.wm with focus_follows_mouse := none, has_pending_raise_op := false } } ∧
    (w.wm.focus_follows_mouse = some .komorebi →
      process_command ops w (.toggleFocusFollowsMouse .komorebi) =
        .ok { w with wm := { w.wm with focus_follows_mouse := none } }) := by
  constructor
  · simp [process_command, validate_virtual_desktop_id, hc, hos]
  · intro hk
    simp [process_command, validate_virtual_desktop_id, hc, hos, hk]

/-- C5 witness: on the concrete world with the internal implementation active
and a pending raise op, disabling via `FocusFollowsMouse(Komorebi, false)`
clears the flag while the toggle path leaves it set. -/
theorem c5_witness :
    komorebiFfmWorld.env.custom_ffm = true ∧
    komorebiFfmWorld.env.os_focus_follows_mouse = false ∧
    komorebiFfmWorld.wm.focus_follows_mouse = some .komorebi ∧
    process_command defaultOps komorebiFfmWorld (.focusFollowsMouse .komorebi false) =
      .ok { komorebiFfmWorld with wm :=
        { komorebiFfmWorld.wm with focus_follows_mouse := none, has_pending_raise_op := false } } ∧
    process_command defaultOps komorebiFfmWorld (.toggleFocusFollowsMouse .komorebi) =
      .ok { komorebiFfmWorld with wm :=
        { komorebiFfmWorld.wm with focus_follows_mouse := none } } := by
  refine ⟨rfl, rfl, rfl, ?_, ?_⟩
  · exact (c5_pending_raise_cleared defaultOps komorebiFfmWorld rfl rfl).1
  · exact (c5_pending_raise_cleared defaultOps komorebiFfmWorld rfl rfl).2 rfl

/-- The no-duplicates invariant of the four global identifier tables (§3,
invariant 4). -/
def tablesNodup (env : Env) : Prop :=
  env.manage_identifiers.Nodup ∧ env.float_identifiers.Nodup ∧
  env.border_overflow_identifiers.Nodup ∧ env.tray_and_multi_window_identifiers.Nodup

lemma insertUnique_nodup (id : String) (l : List String) (h : l.Nodup) :
    (insertUnique id l).Nodup := by
  unfold insertUnique
  split
  · exact h
  · next hni =>
    rw [List.nodup_append]
    refine ⟨h, List.nodup_singleton id, ?_⟩
    intro a ha hb
    simp only [List.mem_singleton] at hb
    exact hni (hb ▸ ha)

lemma process_command_preserves_tables (ops : Ops) (w : World) (m : SocketMessage)
    (h : tablesNodup w.env) : tablesNodup (process_command ops w m).world.env := by
  obtain ⟨h1, h2, h3, h4⟩ := h
  cases m
  case focusFollowsMouse impl enable =>
    simp only [process_command, validate_virtual_desktop_id]
    by_cases hc : w.env.custom_ffm <;>
      by_cases hos : w.env.os_focus_follows_mouse <;>
      by_cases hk : w.wm.focus_follows_mouse = some FocusFollowsMouseImplementation.komorebi <;>
      (try cases impl) <;> cases enable <;>
      simp [hc, hos, hk, Env.warn, tablesNodup, CmdResult.world, h1, h2, h3, h4]
  case toggleFocusFollowsMouse impl =>
    simp only [process_command, validate_virtual_desktop_id]
    by_cases hc : w.env.custom_ffm <;>
      by_cases hos : w.env.os_focus_follows_mouse <;>
      rcases hf : w.wm.focus_follows_mouse with _ | impl2 <;>
      (try cases impl2) <;> (try cases impl) <;>
      simp [hc, hos, hf, Env.warn, tablesNodup, CmdResult.world, h1, h2, h3, h4]
  all_goals
    simp only [process_command, validate_virtual_desktop_id, hstep,
      update_focused_workspace, CmdResult.world] <;>
    (repeat' split) <;>
    first
      | exact ⟨h1, h2, h3, h4⟩
      | exact ⟨insertUnique_nodup _ _ h1, h2, h3, h4⟩
      | exact ⟨h1, insertUnique_nodup _ _ h2, h3, h4⟩
      | exact ⟨h1, h2, insertUnique_nodup _ _ h3, h4⟩
      | exact ⟨h1, h2, h3, insertUnique_nodup _ _ h4⟩
      | (rename_i heq
         (repeat' split at heq) <;> cases heq <;> exact ⟨h1, h2, h3, h4⟩)

lemma read_commands_preserves_tables (ops : Ops) (lines : List (Option SocketMessage)) :
    ∀ w : World, tablesNodup w.env → tablesNodup (read_commands ops w lines).world.env := by
  induction lines with
  | nil => intro w h; exact h
  | cons line rest ih =>
    intro w h
    cases line with
    | none => exact h
    | some m =>
      by_cases hp : w.wm.is_paused = true
      · have hr : read_commands ops w (some m :: rest) =
            match m with
            | .togglePause | .state | .stop => process_command ops w m
            | _ => .ok w := by
          simp [read_commands, hp]
        rw [hr]
        cases m <;>
          first
            | exact process_command_preserves_tables ops w _ ⟨h.1, h.2.1, h.2.2.1, h.2.2.2⟩
            | exact h
      · have hp' : w.wm.is_paused = false := by simpa using hp
        have hr : read_commands ops w (some m :: rest) =
            match process_command ops w m with
            | .ok w1 => read_commands ops (notify_subscribers_payload w1 m) rest
            | r => r := by
          simp [read_commands, hp']
        have hstep' := process_command_preserves_tables ops w m h
        rw [hr]
        cases hres : process_command ops w m with
        | ok w1 =>
          rw [hres] at hstep'
          exact ih _ hstep'
        | exit w1 =>
          rw [hres] at hstep'
          exact hstep'
        | err e w1 =>
          rw [hres] at hstep'
          exact hstep'

/-- C6: each identifier rule command is an idempotent set-insert — when the
identifier is already present the whole world is unchanged — and processing
any stream of commands preserves the no-duplicates invariant of all four
rule-table identifier sequences. -/
theorem c6_rule_tables_idempotent_nodup (ops : Ops) (w : World)
    (kind : ApplicationIdentifier) (id : String) (lines : List (Option SocketMessage)) :
    (id ∈ w.env.manage_identifiers → process_command ops w (.manageRule kind id) = .ok w) ∧
    (id ∈ w.env.float_identifiers → process_command ops w (.floatRule kind id) = .ok w) ∧
    (id ∈ w.env.border_overflow_identifiers →
      process_command ops w (.identifyBorderOverflow kind id) = .ok w) ∧
    (id ∈ w.env.tray_and_multi_window_identifiers →
      process_command ops w (.identifyTrayApplication kind id) = .ok w) ∧
    (tablesNodup w.env → tablesNodup (read_commands ops w lines).world.env) := by
  refine ⟨?_, ?_, ?_, ?_, read_commands_preserves_tables ops lines w⟩
  all_goals intro hmem
  all_goals simp [process_command, validate_virtual_desktop_id, insertUnique, hmem]

/-- A world whose four rule tables each already contain the identifier
`"x"`. -/
def rulesWorld : World :=
  { baseWorld with env := { baseEnv with
      manage_identifiers := ["x"]
      float_identifiers := ["x"]
      border_overflow_identifiers := ["x"]
      tray_and_multi_window_identifiers := ["x"] } }

/-- C6 witness: re-inserting an identifier already present in each table leaves
the concrete world unchanged, and the invariant survives a processed
stream. -/
theorem c6_witness :
    ("x" ∈ rulesWorld.env.manage_identifiers ∧ "x" ∈ rulesWorld.env.float_identifiers ∧
      "x" ∈ rulesWorld.env.border_overflow_identifiers ∧
      "x" ∈ rulesWorld.env.tray_and_multi_window_identifiers ∧ tablesNodup rulesWorld.env) ∧
    process_command defaultOps rulesWorld (.manageRule .exe "x") = .ok rulesWorld ∧
    process_command defaultOps rulesWorld (.floatRule .exe "x") = .ok rulesWorld ∧
    process_command defaultOps rulesWorld (.identifyBorderOverflow .exe "x") = .ok rulesWorld ∧
    process_command defaultOps rulesWorld (.identifyTrayApplication .exe "x") = .ok rulesWorld ∧
    tablesNodup (read_commands defaultOps rulesWorld
      [some (.manageRule .exe "x")]).world.env := by
  have h := c6_rule_tables_idempotent_nodup defaultOps rulesWorld .exe "x"
    [some (.manageRule .exe "x")]
  have hnd : tablesNodup rulesWorld.env := ⟨by decide, by decide, by decide, by decide⟩
  exact ⟨⟨by decide, by decide, by decide, by decide, hnd⟩, h.1 (by decide),
    h.2.1 (by decide), h.2.2.1 (by decide), h.2.2.2.1 (by decide), h.2.2.2.2 hnd⟩

lemma getElem?_modifyIdx (f : α → α) (l : List α) (i : Nat) :
    (modifyIdx f l i)[i]? = (l[i]?).map f := by
  induction l generalizing i with
  | nil => simp [modifyIdx]
  | cons a l ih =>
    cases i with
    | zero => simp [modifyIdx]
    | succ n => simpa [modifyIdx] using ih n

lemma focused_workspace_modify (wm : WindowManager) (f : Workspace → Workspace) :
    (wm.modify_focused_workspace f).focused_workspace = wm.focused_workspace.map f := by
  simp only [WindowManager.modify_focused_workspace, WindowManager.focused_workspace,
    WindowManager.focused_monitor, Monitor.focused_workspace, getElem?_modifyIdx]
  cases hm : wm.monitors[wm.focused_monitor_idx]? with
  | none => rfl
  | some m => simp [getElem?_modifyIdx]

/-- C7: after `QuickSave` records the focused workspace's resize-delta sequence
R, any successful command sequence that preserves the quicksave file and the
focused-workspace position is followed by a `QuickLoad` that succeeds and
restores the focused workspace's resize-delta sequence to exactly R. -/
theorem c7_quicksave_roundtrip (ops : Ops) (w w1 w2 : World) (cs : List SocketMessage)
    (ws ws2 : Workspace)
    (hws : w.wm.focused_workspace = some ws)
    (hsave : process_command ops w .quickSave = .ok w1)
    (hrun : runSeq ops cs w1 = .ok w2)
    (hfile : w2.env.quicksave_file = w1.env.quicksave_file)
    (hfocus : w2.wm.focused_monitor_idx = w1.wm.focused_monitor_idx)
    (hws2 : w2.wm.focused_workspace = some ws2) :
    process_command ops w2 .quickLoad =
      .ok { w2 with wm := w2.wm.modify_focused_workspace fun x => { x with resize_dimensions := ws.resize_dimensions } } ∧
    (process_command ops w2 .quickLoad).world.wm.focused_workspace =
      some { ws2 with resize_dimensions := ws.resize_dimensions } := by
  have hpc : process_command ops w .quickSave =
      .ok { w with env := { w.env with quicksave_file := some ws.resize_dimensions } } := by
    simp [process_command, validate_virtual_desktop_id, hws]
  rw [hpc] at hsave
  cases hsave
  have hfile2 : w2.env.quicksave_file = some ws.resize_dimensions := hfile
  have hload : process_command ops w2 .quickLoad =
      .ok { w2 with wm := w2.wm.modify_focused_workspace fun x => { x with resize_dimensions := ws.resize_dimensions } } := by
    simp [process_command, validate_virtual_desktop_id, hws2, hfile2, hstep,
      update_focused_workspace]
  refine ⟨hload, ?_⟩
  rw [hload]
  simp [CmdResult.world, focused_workspace_modify, hws2]

/-- The world after `QuickSave` on the base world. -/
def c7SaveWorld : World :=
  { baseWorld with env := { baseEnv with quicksave_file := some [some ⟨1, 2, 3, 4⟩] } }

/-- The world after a `ResizeWindow(Left, Increase)` has changed the focused
workspace's resize deltas. -/
def c7MidWorld : World :=
  (runSeq defaultOps [.resizeWindow .left .increase] c7SaveWorld).world

/-- The focused workspace of `c7MidWorld`: its resize delta was moved 50 px on
the left edge. -/
def c7Ws2 : Workspace :=
  { sampleWorkspace with resize_dimensions := [some ⟨-49, 2, 3, 4⟩] }

/-- C7 witness: a concrete `QuickSave ; ResizeWindow ; QuickLoad` run restores
the original resize-delta sequence. -/
theorem c7_witness :
    baseWorld.wm.focused_workspace = some sampleWorkspace ∧
    process_command defaultOps baseWorld .quickSave = .ok c7SaveWorld ∧
    runSeq defaultOps [.resizeWindow .left .increase] c7SaveWorld = .ok c7MidWorld ∧
    c7MidWorld.env.quicksave_file = c7SaveWorld.env.quicksave_file ∧
    c7MidWorld.wm.focused_monitor_idx = c7SaveWorld.wm.focused_monitor_idx ∧
    c7MidWorld.wm.focused_workspace = some c7Ws2 ∧
    (process_command defaultOps c7MidWorld .quickLoad).world.wm.focused_workspace =
      some { c7Ws2 with resize_dimensions := sampleWorkspace.resize_dimensions } := by
  refine ⟨by decide, by decide, by decide, by decide, by decide, by decide, ?_⟩
  exact (c7_quicksave_roundtrip defaultOps baseWorld c7SaveWorld c7MidWorld
    [.resizeWindow .left .increase] sampleWorkspace c7Ws2 (by decide) (by decide) (by decide)
    (by decide) (by decide) (by decide)).2

lemma filter_ne_of_lookup_none (x : String) (l : List (String × Nat))
    (h : l.lookup x = none) : l.filter (fun p => p.1 != x) = l := by
  induction l with
  | nil => rfl
  | cons p l ih =>
    rcases p with ⟨k, v⟩
    by_cases hk : (x == k) = true
    · simp [List.lookup, hk] at h
    · have hlk : l.lookup x = none := by
        simpa [List.lookup, hk] using h
      have hkx : (k != x) = true := by
        rw [bne_iff_ne]
        intro e
        exact hk (by rw [e]; exact beq_self_eq_true x)
      simp [List.filter, hkx, ih hlk]

/-- A world that already has a subscriber named `"bar"` registered. -/
def subWorld : World :=
  { baseWorld with env := { baseEnv with subscription_pipes := [("bar", 0)] } }

/-- C8 counterexample: when the subscriber name is already registered,
`AddSubscriber(x)` replaces the stored pipe and `RemoveSubscriber(x)` then
deletes the entry, so the registry does not return to its initial state. -/
theorem c8_counterexample :
    (runSeq defaultOps [.addSubscriber "bar", .removeSubscriber "bar"] subWorld).isOk = true ∧
    (runSeq defaultOps [.addSubscriber "bar",
        .removeSubscriber "bar"] subWorld).world.env.subscription_pipes ≠
      subWorld.env.subscription_pipes := by
  exact ⟨rfl, by decide⟩

/-- C8 (amended): provided the subscriber name is not yet registered (and the
named pipe exists, so both commands succeed), `AddSubscriber(x)` followed by
`RemoveSubscriber(x)` leaves the subscriber registry — indeed everything
except the fresh-handle counter — unchanged. -/
theorem c8_add_remove_roundtrip (ops : Ops) (w : World) (x : String)
    (habs : w.env.subscription_pipes.lookup x = none)
    (hex : x ∈ w.env.existing_pipes) :
    runSeq ops [.addSubscriber x, .removeSubscriber x] w =
      .ok { w with env := { w.env with next_pipe_handle := w.env.next_pipe_handle + 1 } } := by
  have hadd : process_command ops w (.addSubscriber x) =
      .ok { w with env := { w.env with
        subscription_pipes := w.env.subscription_pipes ++ [(x, w.env.next_pipe_handle)],
        next_pipe_handle := w.env.next_pipe_handle + 1 } } := by
    simp [process_command, validate_virtual_desktop_id, hex, insertAssoc, habs]
  have hfil : (w.env.subscription_pipes ++ [(x, w.env.next_pipe_handle)]).filter
      (fun p => p.1 != x) = w.env.subscription_pipes := by
    rw [List.filter_append, filter_ne_of_lookup_none x _ habs]
    simp
  have hrem : process_command ops { w with env := { w.env with
        subscription_pipes := w.env.subscription_pipes ++ [(x, w.env.next_pipe_handle)],
        next_pipe_handle := w.env.next_pipe_handle + 1 } } (.removeSubscriber x) =
      .ok { w with env := { w.env with
        next_pipe_handle := w.env.next_pipe_handle + 1 } } := by
    simp [process_command, validate_virtual_desktop_id, hfil]
  simp [runSeq, hadd, hrem]

/-- C8 witness: on the concrete base world (no subscriber registered, pipe
`"bar"` available) the add/remove pair restores the registry. -/
theorem c8_witness :
    baseWorld.env.subscription_pipes.lookup "bar" = none ∧
    "bar" ∈ baseWorld.env.existing_pipes ∧
    runSeq defaultOps [.addSubscriber "bar", .removeSubscriber "bar"] baseWorld =
      .ok { baseWorld with env := { baseWorld.env with
        next_pipe_handle := baseWorld.env.next_pipe_handle + 1 } } :=
  ⟨rfl, by decide, c8_add_remove_roundtrip defaultOps baseWorld "bar" rfl (by decide)⟩

/-- C9: `State` writes the pretty-printed JSON snapshot of the full state and
`Query` writes the queried focus index as a plain decimal string with no
terminator, both to the secondary socket `komorebic.sock` in the home
directory (the request stream has no reply channel in this protocol), and the
window-manager state is left unchanged. -/
theorem c9_state_query_responses (ops : Ops) (w : World) (q : StateQuery)
    (home : String) (n : Nat)
    (hhome : w.env.home_dir = some home)
    (hconn : w.env.response_socket_ok = true)
    (hq : query_response w.wm q = .ok n) :
    process_command ops w .state = .ok { w with env := { w.env with
      response_writes := w.env.response_writes ++
        [{ path := response_socket_path home, payload := .prettyStateJson w.wm }] } } ∧
    process_command ops w (.query q) = .ok { w with env := { w.env with
      response_writes := w.env.response_writes ++
        [{ path := response_socket_path home, payload := .raw (Nat.repr n) }] } } := by
  constructor
  · simp [process_command, validate_virtual_desktop_id, hhome, hconn]
  · simp [process_command, validate_virtual_desktop_id, hhome, hconn, hq]

/-- C9 witness: on the concrete base world, `State` writes the snapshot and
`Query(FocusedWindowIndex)` writes the decimal `0`, both to
`/home/user/komorebic.sock`, leaving the manager unchanged. -/
theorem c9_witness :
    baseWorld.env.home_dir = some "/home/user" ∧
    baseWorld.env.response_socket_ok = true ∧
    query_response baseWorld.wm .focusedWindowIndex = .ok 0 ∧
    process_command defaultOps baseWorld .state =
      .ok { baseWorld with env := { baseWorld.env with
        response_writes := baseWorld.env.response_writes ++
          [{ path := response_socket_path "/home/user",
             payload := .prettyStateJson baseWorld.wm }] } } ∧
    process_command defaultOps baseWorld (.query .focusedWindowIndex) =
      .ok { baseWorld with env := { baseWorld.env with
        response_writes := baseWorld.env.response_writes ++
          [{ path := response_socket_path "/home/user", payload := .raw (Nat.repr 0) }] } } := by
  have h := c9_state_query_responses defaultOps baseWorld .focusedWindowIndex "/home/user" 0
    rfl rfl rfl
  exact ⟨rfl, rfl, rfl, h.1, h.2⟩

end Komorebi
